import Mathlib

/-!
Shallow embedding of the 6502 CPU simulator (`src/nes_emulator/src/cpu.rs`).

Machine integers are modelled as `Nat` with explicit wrapping (`% 256` for
`u8`, `% 65536` for `u16`), matching Rust's `wrapping_add` and `as` casts.
Memory is a function `Nat → Nat`; `Mem::write` takes a `u8`, so writes store
values already reduced mod 256 at the call boundary.  Fallible operations
(`read16`, `write16`, `write_range`, and every `.unwrap()` that can panic)
return `Option`; `none` models the Rust error or panic.  The unbounded
`run` loop is given explicit fuel; `none` also covers fuel exhaustion.
-/

namespace Nes

def INIT_PROGRAM_COUNTER_ADDR : Nat := 0xfffc

def MEM_ADDR_MAX : Nat := 0xffff

def MEM_ADDR_SPACE_SIZE : Nat := 0x10000

def MEM_PRG_ROM_ADDR_START : Nat := 0x8000

def DEBUG_ADDR : Nat := 0xffff

/-- Addressing modes, as in the Rust `AddressingMode` enum. -/
inductive AddressingMode where
  | Immediate
  | ZeroPage
  | ZeroPageX
  | ZeroPageY
  | Absolute
  | AbsoluteX
  | AbsoluteY
  | Indirect
  | IndirectX
  | IndirectY
  | NoneAddressing
deriving DecidableEq

/-- Instruction descriptor, as in the Rust `OpCode` struct. -/
structure OpCode where
  code : Nat
  name : String
  bytes : Nat
  cycles : Nat
  addressingMode : AddressingMode
deriving DecidableEq

def OPCODE_BRK : Nat := 0x00

def OPCODE_LDA_IMMEDIATE : Nat := 0xa9

def OPCODE_LDA_ZEROPAGE : Nat := 0xa5

def OPCODE_LDA_ZEROPAGEX : Nat := 0xb5

def OPCODE_LDA_ABSOLUTE : Nat := 0xad

def OPCODE_LDA_ABSOLUTEX : Nat := 0xbd

def OPCODE_LDA_ABSOLUTEY : Nat := 0xb9

def OPCODE_LDA_INDIRECTX : Nat := 0xa1

def OPCODE_LDA_INDIRECTY : Nat := 0xb1

def OPCODE_JMP_ABSOLUTE : Nat := 0x4c

def OPCODE_JMP_INDIRECT : Nat := 0x6c

def OPCODE_INX : Nat := 0xe8

def OPCODE_TAX : Nat := 0xaa

/-- The hardcoded instruction table, as in the Rust `OPCODES` vector. -/
def OPCODES : List OpCode := [
  ⟨OPCODE_BRK, "BRK", 0, 7, .NoneAddressing⟩,
  ⟨OPCODE_JMP_ABSOLUTE, "JMP", 3, 3, .Absolute⟩,
  ⟨OPCODE_LDA_IMMEDIATE, "LDA", 2, 2, .Immediate⟩,
  ⟨OPCODE_LDA_ZEROPAGE, "LDA", 2, 2, .ZeroPage⟩,
  ⟨OPCODE_LDA_ZEROPAGEX, "LDA", 2, 2, .ZeroPageX⟩,
  ⟨OPCODE_LDA_ABSOLUTE, "LDA", 3, 4, .Absolute⟩,
  ⟨OPCODE_LDA_ABSOLUTEX, "LDA", 3, 4, .AbsoluteX⟩,
  ⟨OPCODE_LDA_ABSOLUTEY, "LDA", 3, 4, .AbsoluteY⟩,
  ⟨OPCODE_LDA_INDIRECTX, "LDA", 2, 6, .IndirectX⟩,
  ⟨OPCODE_LDA_INDIRECTY, "LDA", 2, 5, .IndirectY⟩,
  ⟨OPCODE_INX, "INX", 1, 2, .NoneAddressing⟩,
  ⟨OPCODE_TAX, "TAX", 1, 1, .NoneAddressing⟩ ]

/-- Lookup in the `OPCODE_MAP` hash map (opcode codes in `OPCODES` are distinct). -/
def opcodeMap (c : Nat) : Option OpCode :=
  OPCODES.find? (fun op => op.code == c)

/-- `Mem::read`: total over the address space. -/
def memRead (m : Nat → Nat) (addr : Nat) : Nat := m addr

/-- `Mem::write`: total, unconditional; the `u8` argument is a value mod 256. -/
def memWrite (m : Nat → Nat) (addr val : Nat) : Nat → Nat :=
  fun a => if a = addr then val else m a

/-- `Mem::read16`: little-endian, fails at the maximum address. -/
def memRead16 (m : Nat → Nat) (addr : Nat) : Option Nat :=
  if addr = MEM_ADDR_MAX then none
  else
    some ((memRead m ((addr + 1) % 65536)) <<< 8 ||| memRead m addr)

/-- `Mem::write16`: low byte at `addr`, high byte at `addr + 1`; fails at the
maximum address.  The casts `val as u8` and `(val >> 8) as u8` are `% 256`. -/
def memWrite16 (m : Nat → Nat) (addr val : Nat) : Option (Nat → Nat) :=
  if addr = MEM_ADDR_MAX then none
  else
    some (memWrite (memWrite m addr (val % 256)) ((addr + 1) % 65536) ((val >>> 8) % 256))

/-- The sequential write loop inside `Mem::write_range`. -/
def writeList (m : Nat → Nat) (start : Nat) : List Nat → (Nat → Nat)
  | [] => m
  | v :: rest => writeList (memWrite m start v) (start + 1) rest

/-- `Mem::write_range`: fails when the range exceeds the address space. -/
def memWriteRange (m : Nat → Nat) (start : Nat) (val : List Nat) : Option (Nat → Nat) :=
  if start + val.length > MEM_ADDR_SPACE_SIZE then none
  else some (writeList m start val)

def STATUS_C : Nat := 0x01

def STATUS_Z : Nat := 0x02

def STATUS_I : Nat := 0x04

def STATUS_D : Nat := 0x08

def STATUS_B : Nat := 0x10

def STATUS_V : Nat := 0x40

def STATUS_N : Nat := 0x80

/-- `bitflags` insert: bitwise or. -/
def statusInsert (s flag : Nat) : Nat := s ||| flag

/-- `bitflags` remove: `bits &= !other.bits` on `u8`, i.e. and with the
8-bit complement. -/
def statusRemove (s flag : Nat) : Nat := s &&& (flag ^^^ 255)

/-- CPU state: registers, status bitfield, program counter and memory. -/
structure CPU where
  reg_a : Nat
  reg_x : Nat
  reg_y : Nat
  reg_status : Nat
  pc : Nat
  mem : Nat → Nat

/-- `CPU::new`: zero registers and flags, zero PC, zero-filled memory. -/
def CPU.new : CPU :=
  { reg_a := 0, reg_x := 0, reg_y := 0, reg_status := 0, pc := 0, mem := fun _ => 0 }

/-- `CPU::set_negative_flag`. -/
def setNegativeFlag (s : CPU) (register : Nat) : CPU :=
  if register &&& 0x80 = 0 then
    { s with reg_status := statusRemove s.reg_status STATUS_N }
  else
    { s with reg_status := statusInsert s.reg_status STATUS_N }

/-- `CPU::set_zero_flag`. -/
def setZeroFlag (s : CPU) (register : Nat) : CPU :=
  if register = 0 then
    { s with reg_status := statusInsert s.reg_status STATUS_Z }
  else
    { s with reg_status := statusRemove s.reg_status STATUS_Z }

/-- `CPU::brk`: no effect on state. -/
def brk (s : CPU) (_addr : Nat) : CPU := s

/-- `CPU::inx`: X += 1 with 8-bit wraparound, then update N and Z from X. -/
def inx (s : CPU) (_addr : Nat) : CPU :=
  let s1 : CPU := { s with reg_x := (s.reg_x + 1) % 256 }
  let s2 := setNegativeFlag s1 s1.reg_x
  setZeroFlag s2 s2.reg_x

/-- `CPU::jmp`: PC ← resolved address. -/
def jmp (s : CPU) (addr : Nat) : CPU := { s with pc := addr }

/-- `CPU::lda`: A ← byte at resolved address, then update N and Z from A. -/
def lda (s : CPU) (addr : Nat) : CPU :=
  let s1 : CPU := { s with reg_a := memRead s.mem addr }
  let s2 := setNegativeFlag s1 s1.reg_a
  setZeroFlag s2 s2.reg_a

/-- `CPU::tax`: X ← A, then update N and Z from X. -/
def tax (s : CPU) (_addr : Nat) : CPU :=
  let s1 : CPU := { s with reg_x := s.reg_a }
  let s2 := setNegativeFlag s1 s1.reg_x
  setZeroFlag s2 s2.reg_x

/-- Lookup in the `INSTRUCTION_HANDLERS` hash map. -/
def handlerMap (c : Nat) : Option (CPU → Nat → CPU) :=
  if c = OPCODE_BRK then some brk
  else if c = OPCODE_LDA_IMMEDIATE then some lda
  else if c = OPCODE_LDA_ZEROPAGE then some lda
  else if c = OPCODE_LDA_ZEROPAGEX then some lda
  else if c = OPCODE_LDA_ABSOLUTE then some lda
  else if c = OPCODE_LDA_ABSOLUTEX then some lda
  else if c = OPCODE_LDA_ABSOLUTEY then some lda
  else if c = OPCODE_LDA_INDIRECTX then some lda
  else if c = OPCODE_LDA_INDIRECTY then some lda
  else if c = OPCODE_JMP_ABSOLUTE then some jmp
  else if c = OPCODE_INX then some inx
  else if c = OPCODE_TAX then some tax
  else none

/-- `CPU::read_operand_address`: effective-address computation per addressing
mode.  `none` models the panic of `read_mem16`'s `unwrap` when a 16-bit read
starts at the maximum address. -/
def readOperandAddress (s : CPU) (addr : Nat) : AddressingMode → Option Nat
  | .Immediate => some addr
  | .ZeroPage => some (memRead s.mem addr)
  | .ZeroPageX => some ((memRead s.mem addr + s.reg_x) % 256)
  | .ZeroPageY => some ((memRead s.mem addr + s.reg_y) % 256)
  | .Absolute => memRead16 s.mem addr
  | .AbsoluteX => (memRead16 s.mem addr).map (fun a => (a + s.reg_x) % 65536)
  | .AbsoluteY => (memRead16 s.mem addr).map (fun a => (a + s.reg_y) % 65536)
  | .Indirect => (memRead16 s.mem addr).bind (fun a => memRead16 s.mem a)
  | .IndirectX => memRead16 s.mem ((memRead s.mem addr + s.reg_x) % 256)
  | .IndirectY =>
      (memRead16 s.mem addr).bind
        (fun a => (memRead16 s.mem a).map (fun b => (b + s.reg_y) % 65536))
  | .NoneAddressing => some DEBUG_ADDR

/-- `CPU::dispatch_instruction`: resolve the operand address, run the handler,
advance PC by the descriptor's byte count when the handler left PC unchanged,
and report `false` (halt) exactly for the break opcode. -/
def dispatchInstruction (s : CPU) (op : OpCode) : Option (Bool × CPU) :=
  let currPc := s.pc
  match handlerMap op.code with
  | none => none
  | some handler =>
    match readOperandAddress s ((s.pc + 1) % 65536) op.addressingMode with
    | none => none
    | some addr =>
      let s1 := handler s addr
      let s2 :=
        if currPc = s1.pc then { s1 with pc := (s1.pc + op.bytes) % 65536 } else s1
      if op.code = OPCODE_BRK then some (false, s2) else some (true, s2)

/-- `CPU::step`: fetch the byte at PC, look it up, dispatch; `none` models the
panic on an opcode absent from the catalog (and panics inside dispatch). -/
def step (s : CPU) : Option (Bool × CPU) :=
  match opcodeMap (memRead s.mem s.pc) with
  | some op => dispatchInstruction s op
  | none => none

/-- The `loop` body of `CPU::run`: iterate `step` until it reports halt.
Fuel bounds the iteration; `none` is fuel exhaustion or a panic. -/
def runFuel : Nat → CPU → Option CPU
  | 0, _ => none
  | fuel + 1, s =>
    match step s with
    | none => none
    | some (cont, s1) => if cont then runFuel fuel s1 else some s1

/-- `CPU::run`: set PC to the ROM start, then iterate `step` until halt. -/
def run (fuel : Nat) (s : CPU) : Option CPU :=
  runFuel fuel { s with pc := MEM_PRG_ROM_ADDR_START }

/-- `CPU::load`: write the program into ROM, then point the reset vector at
the ROM start. -/
def load (s : CPU) (program : List Nat) : Option CPU :=
  (memWriteRange s.mem MEM_PRG_ROM_ADDR_START program).bind fun m1 =>
    (memWrite16 m1 INIT_PROGRAM_COUNTER_ADDR MEM_PRG_ROM_ADDR_START).map fun m2 =>
      { s with mem := m2 }

/-- `CPU::reset`: zero registers and flags, reload PC from the reset vector;
`none` models the `unwrap` panic (unreachable, since 0xfffc ≠ 0xffff). -/
def reset (s : CPU) : Option CPU :=
  (memRead16 s.mem INIT_PROGRAM_COUNTER_ADDR).map fun v =>
    { s with reg_a := 0, reg_x := 0, reg_y := 0, reg_status := 0, pc := v }

/-- `CPU::interpret`: compose `load`, `reset`, `run`. -/
def interpret (fuel : Nat) (s : CPU) (program : List Nat) : Option CPU :=
  (load s program).bind fun s1 => (reset s1).bind fun s2 => run fuel s2

/-! Concrete CPU states used to evaluate the code on specific inputs. -/

/-- All-zero memory, as produced by `Mem::new`. -/
def mem0 : Nat → Nat := fun _ => 0

/-- Memory holding an LDA indirect-Y instruction at 0x8000 with operand byte
0x10, followed by the byte 0x01; the zero-page pointer at 0x0010 holds
0x2000 and the (non-zero-page) location 0x0110 holds a pointer to 0x3000. -/
def memIndY : Nat → Nat :=
  memWrite (memWrite (memWrite (memWrite (memWrite (memWrite (memWrite mem0
    0x8000 0xb1) 0x8001 0x10) 0x8002 0x01) 0x0010 0x00) 0x0011 0x20)
    0x0110 0x00) 0x0111 0x30

/-- CPU about to execute the LDA indirect-Y instruction in `memIndY`. -/
def cpuIndY : CPU :=
  { reg_a := 0, reg_x := 0, reg_y := 0, reg_status := 0, pc := 0x8000, mem := memIndY }

/-- Memory holding `4C 00 80` at 0x8000: a jump-absolute whose target is the
address of the jump instruction itself. -/
def memJmpSelf : Nat → Nat :=
  memWrite (memWrite (memWrite mem0 0x8000 0x4c) 0x8001 0x00) 0x8002 0x80

/-- CPU about to execute the self-targeting jump in `memJmpSelf`. -/
def cpuJmpSelf : CPU :=
  { reg_a := 0, reg_x := 0, reg_y := 0, reg_status := 0, pc := 0x8000, mem := memJmpSelf }

/-- CPU whose PC sits at 0xfffe on a jump-absolute opcode, so that operand
resolution must read a 16-bit value starting at address 0xffff. -/
def cpuTopJmp : CPU :=
  { reg_a := 0, reg_x := 0, reg_y := 0, reg_status := 0, pc := 0xfffe,
    mem := memWrite mem0 0xfffe 0x4c }

/-- CPU with zero memory whose PC is already at the ROM start. -/
def cpuAtRom : CPU :=
  { reg_a := 0, reg_x := 0, reg_y := 0, reg_status := 0, pc := 0x8000, mem := mem0 }

/-! Helper lemmas shared by the claim theorems. -/

/-- Every opcode in the catalog has an entry in the handler table. -/
theorem handlerMap_isSome_of_mem : ∀ op ∈ OPCODES, (handlerMap op.code).isSome = true := by
  decide

/-- Masking with 128 is zero exactly when bit 7 is clear. -/
theorem land_128_eq_zero_iff (v : Nat) : v &&& 128 = 0 ↔ v.testBit 7 = false := by
  have h : v &&& 128 = (v.testBit 7).toNat * 128 := by
    have h2 := Nat.and_two_pow v 7
    norm_num at h2
    exact h2
  rw [h]
  cases v.testBit 7 <;> simp

/-! Claim theorems. -/

/-- Claim C1 (code bug): on `cpuIndY` the indirect-Y resolver produces 0x3000,
because it reads a full 16-bit pointer address at the operand location
(`read_mem16`, consuming the byte after the operand), while the zero-page
pointer named by the single operand byte (high byte zero) holds 0x2000; the
claimed effective address (pointer at the zero-page operand, plus Y) is
0x2000, so the code diverges from the claim on this state. -/
theorem c1_indirect_y_failing :
    readOperandAddress cpuIndY ((cpuIndY.pc + 1) % 65536) .IndirectY = some 0x3000 ∧
    (memRead16 cpuIndY.mem (memRead cpuIndY.mem ((cpuIndY.pc + 1) % 65536))).map
      (fun b => (b + cpuIndY.reg_y) % 65536) = some 0x2000 := by
  decide

/-- Claim C2 (code bug): executing the jump-absolute at 0x8000 whose resolved
effective address is its own address 0x8000, `step` leaves the program counter
at 0x8003, not at the effective address: the `curr_pc == self.pc` test cannot
distinguish a self-targeting jump from no jump, so the automatic PC advance is
not suppressed. -/
theorem c2_jmp_self_failing :
    readOperandAddress cpuJmpSelf ((cpuJmpSelf.pc + 1) % 65536) .Absolute = some 0x8000 ∧
    (step cpuJmpSelf).map (fun p => (p.1, p.2.pc)) = some (true, 0x8003) := by
  decide

/-- Claim C3 (counterexample): `run` is not equivalent to iterating `step` on
the starting state: from the freshly constructed CPU (PC = 0) the two final
program counters differ, because `run` first sets PC to the ROM start. -/
theorem c3_counterexample :
    (run 1 CPU.new).map CPU.pc ≠ (runFuel 1 CPU.new).map CPU.pc := by
  decide

/-- Claim C3 (amended): `run()` first sets the program counter to the ROM
start 0x8000 and is from then on exactly the iteration of `step()` until
halt; in particular, for a state whose PC is already 0x8000 the originally
claimed equivalence holds. -/
theorem c3_run_sets_pc_then_steps (fuel : Nat) (s : CPU) :
    run fuel s = runFuel fuel { s with pc := MEM_PRG_ROM_ADDR_START } ∧
    (s.pc = MEM_PRG_ROM_ADDR_START → run fuel s = runFuel fuel s) := by
  constructor
  · rfl
  · intro h
    have heq : { s with pc := MEM_PRG_ROM_ADDR_START } = s := by
      cases s
      simp only at h
      rw [h]
    rw [run, heq]

/-- Claim C3 (witness): the amended equivalence evaluated on a concrete state
whose PC is already at the ROM start. -/
theorem c3_witness : run 1 cpuAtRom = runFuel 1 cpuAtRom :=
  (c3_run_sets_pc_then_steps 1 cpuAtRom).2 rfl

/-- Claim C4 (counterexample): a state whose PC sits at 0xfffe on the
jump-absolute opcode: the opcode is present in the catalog, yet `step` fails,
because operand resolution must read a 16-bit value starting at 0xffff and
the underlying `read16` rejects that address (`unwrap` panics). -/
theorem c4_counterexample :
    (opcodeMap (memRead cpuTopJmp.mem cpuTopJmp.pc)).isSome = true ∧
    (step cpuTopJmp).isNone = true := by
  decide

/-- Claim C4 (amended): whenever the byte at PC is a cataloged opcode and the
address resolver succeeds for that opcode's addressing mode (it can only fail
by attempting a 16-bit read starting at address 0xffff), `step` completes
without failure. -/
theorem c4_step_total_amended (s : CPU) (op : OpCode)
    (hop : opcodeMap (memRead s.mem s.pc) = some op)
    (haddr : (readOperandAddress s ((s.pc + 1) % 65536) op.addressingMode).isSome = true) :
    (step s).isSome = true := by
  have hmem : op ∈ OPCODES := List.mem_of_find?_eq_some hop
  have hh := handlerMap_isSome_of_mem op hmem
  obtain ⟨handler, hhandler⟩ := Option.isSome_iff_exists.mp hh
  obtain ⟨a, ha⟩ := Option.isSome_iff_exists.mp haddr
  unfold step dispatchInstruction
  simp only [hop, hhandler, ha]
  split <;> rfl

/-- Claim C4 (witness): the amended theorem applied at a concrete state whose
PC points at the break opcode. -/
theorem c4_witness : (step cpuAtRom).isSome = true :=
  c4_step_total_amended cpuAtRom ⟨OPCODE_BRK, "BRK", 0, 7, .NoneAddressing⟩
    (by decide) (by decide)

/-- Claim C5 (counterexample): the break descriptor's length field is 0, so it
is not the case that every cataloged descriptor has length at least 1. -/
theorem c5_counterexample :
    (opcodeMap OPCODE_BRK).map OpCode.bytes = some 0 ∧
    ¬ (∀ op ∈ OPCODES, 1 ≤ op.bytes) := by
  decide

/-- Claim C5 (amended): every cataloged opcode other than break has a length
field of at least 1; break's descriptor carries length 0. -/
theorem c5_length_amended : ∀ op ∈ OPCODES, op.code ≠ OPCODE_BRK → 1 ≤ op.bytes := by
  decide

/-- Claim C5 (witness): the amended bound evaluated on the jump-absolute
descriptor. -/
theorem c5_length_witness : 1 ≤ (OpCode.mk OPCODE_JMP_ABSOLUTE "JMP" 3 3 .Absolute).bytes :=
  c5_length_amended ⟨OPCODE_JMP_ABSOLUTE, "JMP", 3, 3, .Absolute⟩ (by decide) (by decide)

/-- Claim C6 (code bug): bit 5 of the status register is 0, not 1, in reachable
states: both the freshly constructed CPU and the CPU after `reset` carry a
status byte whose bit 5 is clear, although the source's own comment says bit 5
is always set to 1. -/
theorem c6_bit5_clear :
    CPU.new.reg_status.testBit 5 = false ∧
    (reset CPU.new).map (fun s => s.reg_status.testBit 5) = some false := by
  decide

/-- Claim C7: for every memory, every address below 65535 and every 16-bit
value, `write16` succeeds, a subsequent `read16` returns the value, the low
byte lands at `addr` and the high byte at `addr + 1` (little-endian); and at
address 65535 both `write16` and `read16` fail (the failing `write16` returns
before any write, so memory is unchanged). -/
theorem c7_write16_read16_roundtrip (m : Nat → Nat) (addr v : Nat)
    (h1 : addr < 65535) (h2 : v < 65536) :
    (memWrite16 m addr v).bind (fun m2 => memRead16 m2 addr) = some v ∧
    (memWrite16 m addr v).map (fun m2 => m2 addr) = some (v % 256) ∧
    (memWrite16 m addr v).map (fun m2 => m2 (addr + 1)) = some (v / 256) ∧
    memWrite16 m 65535 v = none ∧
    memRead16 m 65535 = none := by
  have haddr : ¬ (addr = MEM_ADDR_MAX) := by
    unfold MEM_ADDR_MAX
    omega
  have hmod : (addr + 1) % 65536 = addr + 1 := Nat.mod_eq_of_lt (by omega)
  have hne : ¬ (addr = addr + 1) := by omega
  have hsh : v >>> 8 = v / 256 := by
    rw [Nat.shiftRight_eq_div_pow]
  have hdivlt : v / 256 < 256 := by omega
  have hdivmod : (v >>> 8) % 256 = v / 256 := by rw [hsh, Nat.mod_eq_of_lt hdivlt]
  have hread_hi : memWrite (memWrite m addr (v % 256)) (addr + 1) ((v >>> 8) % 256) (addr + 1)
      = (v >>> 8) % 256 := by
    simp [memWrite]
  have hread_lo : memWrite (memWrite m addr (v % 256)) (addr + 1) ((v >>> 8) % 256) addr
      = v % 256 := by
    simp [memWrite, hne]
  refine ⟨?_, ?_, ?_, ?_, ?_⟩
  · simp only [memWrite16, if_neg haddr]
    simp only [Option.some_bind]
    simp only [memRead16, if_neg haddr, hmod, memRead]
    rw [hread_hi, hread_lo, hdivmod, Nat.shiftLeft_eq]
    have hor := Nat.mul_add_lt_is_or (i := 8) (by omega : v % 256 < 2 ^ 8) (v / 256)
    rw [Nat.mul_comm (v / 256) (2 ^ 8), ← hor]
    simp only [Option.some.injEq]
    omega
  · simp only [memWrite16, if_neg haddr, hmod, Option.map_some']
    rw [hread_lo]
  · simp only [memWrite16, if_neg haddr, hmod, Option.map_some']
    rw [hread_hi, hdivmod]
  · rfl
  · rfl

/-- Claim C7 (witness): the round-trip and the failures at 65535, evaluated at
address 1 and value 0xccff on all-zero memory. -/
theorem c7_roundtrip_witness :
    (memWrite16 mem0 1 0xccff).bind (fun m2 => memRead16 m2 1) = some 0xccff ∧
    (memWrite16 mem0 1 0xccff).map (fun m2 => m2 1) = some (0xccff % 256) ∧
    (memWrite16 mem0 1 0xccff).map (fun m2 => m2 (1 + 1)) = some (0xccff / 256) ∧
    memWrite16 mem0 65535 0xccff = none ∧
    memRead16 mem0 65535 = none :=
  c7_write16_read16_roundtrip mem0 1 0xccff (by decide) (by decide)

/-- Claim C8: the load-accumulator handler sets A to the byte at the resolved
effective address, sets the zero flag (bit 1) iff that byte is 0, sets the
negative flag (bit 7) iff bit 7 of that byte is 1, and leaves X, Y and the
carry (bit 0), interrupt-disable (bit 2), decimal (bit 3), break (bit 4) and
overflow (bit 6) flags unchanged. -/
theorem c8_lda_semantics (s : CPU) (addr : Nat) :
    (lda s addr).reg_a = memRead s.mem addr ∧
    ((lda s addr).reg_status.testBit 1 = true ↔ memRead s.mem addr = 0) ∧
    (lda s addr).reg_status.testBit 7 = (memRead s.mem addr).testBit 7 ∧
    (lda s addr).reg_x = s.reg_x ∧
    (lda s addr).reg_y = s.reg_y ∧
    (lda s addr).reg_status.testBit 0 = s.reg_status.testBit 0 ∧
    (lda s addr).reg_status.testBit 2 = s.reg_status.testBit 2 ∧
    (lda s addr).reg_status.testBit 3 = s.reg_status.testBit 3 ∧
    (lda s addr).reg_status.testBit 4 = s.reg_status.testBit 4 ∧
    (lda s addr).reg_status.testBit 6 = s.reg_status.testBit 6 := by
  by_cases h0 : memRead s.mem addr = 0
  · simp [lda, setNegativeFlag, setZeroFlag, statusInsert, statusRemove,
      STATUS_N, STATUS_Z, h0, Nat.testBit_or, Nat.testBit_and,
      (show Nat.testBit 127 1 = true by decide), (show Nat.testBit 127 2 = true by decide),
      (show Nat.testBit 127 3 = true by decide), (show Nat.testBit 127 4 = true by decide),
      (show Nat.testBit 127 6 = true by decide), (show Nat.testBit 127 7 = false by decide),
      (show Nat.testBit 2 1 = true by decide), (show Nat.testBit 2 2 = false by decide),
      (show Nat.testBit 2 3 = false by decide), (show Nat.testBit 2 4 = false by decide),
      (show Nat.testBit 2 6 = false by decide), (show Nat.testBit 2 7 = false by decide)]
  · by_cases h7 : memRead s.mem addr &&& 128 = 0
    · have hb : (memRead s.mem addr).testBit 7 = false := (land_128_eq_zero_iff _).mp h7
      simp [lda, setNegativeFlag, setZeroFlag, statusInsert, statusRemove,
        STATUS_N, STATUS_Z, h0, h7, hb, Nat.testBit_or, Nat.testBit_and,
        (show Nat.testBit 127 1 = true by decide), (show Nat.testBit 127 2 = true by decide),
        (show Nat.testBit 127 3 = true by decide), (show Nat.testBit 127 4 = true by decide),
        (show Nat.testBit 127 6 = true by decide), (show Nat.testBit 127 7 = false by decide),
        (show Nat.testBit 253 1 = false by decide), (show Nat.testBit 253 2 = true by decide),
        (show Nat.testBit 253 3 = true by decide), (show Nat.testBit 253 4 = true by decide),
        (show Nat.testBit 253 6 = true by decide), (show Nat.testBit 253 7 = true by decide)]
    · have hb : (memRead s.mem addr).testBit 7 = true := by
        rcases Bool.eq_false_or_eq_true ((memRead s.mem addr).testBit 7) with h | h
        · exact h
        · exact absurd ((land_128_eq_zero_iff _).mpr h) h7
      simp [lda, setNegativeFlag, setZeroFlag, statusInsert, statusRemove,
        STATUS_N, STATUS_Z, h0, h7, hb, Nat.testBit_or, Nat.testBit_and,
        (show Nat.testBit 128 1 = false by decide), (show Nat.testBit 128 2 = false by decide),
        (show Nat.testBit 128 3 = false by decide), (show Nat.testBit 128 4 = false by decide),
        (show Nat.testBit 128 6 = false by decide), (show Nat.testBit 128 7 = true by decide),
        (show Nat.testBit 253 1 = false by decide), (show Nat.testBit 253 2 = true by decide),
        (show Nat.testBit 253 3 = true by decide), (show Nat.testBit 253 4 = true by decide),
        (show Nat.testBit 253 6 = true by decide), (show Nat.testBit 253 7 = true by decide)]

/-- Claim C9: for every program of length at most 32768 bytes, `load`
succeeds, and afterwards the byte at 0xfffc is 0x00 and the byte at 0xfffd is
0x80: the reset vector points at 0x8000.  The bound covers programs longer
than 0x7ffc bytes, whose own bytes at offsets 0x7ffc and 0x7ffd are
overwritten by the reset-vector write, which happens after the program
bytes are written. -/
theorem c9_load_reset_vector (s : CPU) (program : List Nat)
    (h : program.length ≤ 32768) :
    (load s program).map (fun s2 => (s2.mem 0xfffc, s2.mem 0xfffd)) = some (0x00, 0x80) := by
  have hrange : ¬ (MEM_PRG_ROM_ADDR_START + program.length > MEM_ADDR_SPACE_SIZE) := by
    unfold MEM_PRG_ROM_ADDR_START MEM_ADDR_SPACE_SIZE
    omega
  rw [load, memWriteRange, if_neg hrange]
  simp [memWrite16, memWrite, MEM_ADDR_MAX, INIT_PROGRAM_COUNTER_ADDR, MEM_PRG_ROM_ADDR_START]

/-- Claim C9 (witness): loading a maximum-length program of 32768 bytes, which
covers the reset-vector addresses before they are overwritten. -/
theorem c9_load_witness :
    (load CPU.new (List.replicate 32768 1)).map
      (fun s2 => (s2.mem 0xfffc, s2.mem 0xfffd)) = some (0x00, 0x80) :=
  c9_load_reset_vector CPU.new (List.replicate 32768 1)
    (by rw [List.length_replicate])

/-- Claim C10: interpreting the empty program on a freshly constructed engine
succeeds with a single step of fuel (fresh memory is all zeros and byte 0x00
is the break opcode) and fails with zero steps of fuel; afterwards A, X, Y
are 0, the status byte is 0 (all flags clear), and PC is 0x8000, still at the
break byte since break's catalog length is 0. -/
theorem c10_interpret_empty :
    (interpret 1 CPU.new []).map
      (fun s => (s.reg_a, s.reg_x, s.reg_y, s.reg_status, s.pc)) =
      some (0, 0, 0, 0, 0x8000) ∧
    (interpret 0 CPU.new []).isNone = true := by
  decide

end Nes
